import Mathlib

/-!
Shallow embedding of `src/ibc/utils/auth.py` (class `InteractiveBrokersAuthentication`).

The Python class holds four fields set in `__init__` (`client`, `session`,
`authenticated`, `server_process_id`, plus the derived `is_windows`) and performs
I/O through: `subprocess.Popen` / `subprocess.run`, `webbrowser.open`, `print`,
and `self.session.make_request`.  The embedding makes the I/O explicit:

* the object state is the structure `InteractiveBrokersAuthentication`; the
  `client` and `session` collaborators are opaque handles (`Nat` ids) since the
  class only stores them and forwards calls to the session;
* every observable action is recorded in an `Effect` trace in program order;
* the behaviour of the external session collaborator is a parameter
  `SessionEnv : Nat → method → endpoint → payload → Except Unit PyDict`
  (an `Except.error` models `make_request` raising an exception);
* the stdout produced by a `subprocess.run` call, and the pid produced by
  `subprocess.Popen`, are passed in as parameters (the command that was run is
  still recorded in the trace);
* Python operations that can raise (`IndexError` on `data[0]`, `KeyError` on
  `response['authenticated']`) return `Except Unit _`, the error mirroring the
  raised exception.

String helpers (`splitlines`, `split(',')`, substring `in`, `str.replace`,
one line of `csv.reader`) are re-implemented over character lists so that the
kernel can evaluate them; each mirrors the Python behaviour on the inputs the
module feeds it.
-/

set_option linter.unusedVariables false

/-- A Python value as it appears in this module: `None`, a bool, an int, or a
string.  `server_process_id` holds `None` (from `__init__`), an int (from
`subprocess.Popen(...).pid`) or a string (parsed from `pgrep`/`tasklist`
output). -/
inductive PyVal where
  | none
  | bool (b : Bool)
  | int (n : Int)
  | str (s : String)
  deriving DecidableEq, Repr

/-- Python `str(v)` for the values above; in particular `str(None) = "None"`. -/
def pyStr : PyVal → String
  | PyVal.none => "None"
  | PyVal.bool true => "True"
  | PyVal.bool false => "False"
  | PyVal.int n => toString n
  | PyVal.str s => s

/-- Python `v == True` (note `1 == True` holds in Python). -/
def pyEqTrue : PyVal → Bool
  | PyVal.bool b => b
  | PyVal.int n => n == 1
  | _ => false

/-- A JSON-style dict as returned by the session collaborator. -/
abbrev PyDict := List (String × PyVal)

/-- Python `d[k]` as an optional lookup (`Option.none` models `KeyError`). -/
def dictGet? (d : PyDict) (k : String) : Option PyVal :=
  (d.find? (fun p => p.1 == k)).map (fun p => p.2)

/-- One observable action of the module, in program order. -/
inductive Effect where
  | subprocessPopen (args : List String) (cwd : String)
  | subprocessRun (args : List String)
  | browserOpen (url : String)
  | printMsg (msg : String)
  | httpRequest (method : String) (endpoint : String) (json_payload : Option PyDict)
  deriving DecidableEq, Repr

/-- The behaviour of the external session collaborator: given the session
handle, HTTP method, endpoint and optional JSON payload, it returns the dict
response, or `Except.error ()` when `make_request` raises. -/
abbrev SessionEnv := Nat → String → String → Option PyDict → Except Unit PyDict

/- ### String helpers (Python semantics over character lists) -/

/-- Helper for `splitlines`: accumulates the current line (reversed). -/
def splitlinesAux : List Char → List Char → List String
  | [], acc => if acc.isEmpty then [] else [String.mk acc.reverse]
  | '\r' :: '\n' :: rest, acc => String.mk acc.reverse :: splitlinesAux rest []
  | '\n' :: rest, acc => String.mk acc.reverse :: splitlinesAux rest []
  | '\r' :: rest, acc => String.mk acc.reverse :: splitlinesAux rest []
  | c :: rest, acc => splitlinesAux rest (c :: acc)

/-- Python `s.splitlines()` for the line endings produced by the OS tools used
here (`\n`, `\r\n`, `\r`): no trailing empty line, and `"".splitlines() = []`. -/
def splitlines (s : String) : List String :=
  splitlinesAux s.data []

/-- Helper: does `pre` start `l`? -/
def startsWithChars : List Char → List Char → Bool
  | [], _ => true
  | _ :: _, [] => false
  | a :: as, b :: bs => a == b && startsWithChars as bs

/-- Helper: does `needle` occur somewhere in `hay`? -/
def containsSubChars (needle : List Char) : List Char → Bool
  | [] => startsWithChars needle []
  | c :: rest => startsWithChars needle (c :: rest) || containsSubChars needle rest

/-- Python `needle in hay` on strings (substring test). -/
def pyInStr (needle hay : String) : Bool :=
  containsSubChars needle.data hay.data

/-- Helper for Python `s.split(',')`. -/
def splitOnCommaAux : List Char → List Char → List String
  | [], acc => [String.mk acc.reverse]
  | ',' :: rest, acc => String.mk acc.reverse :: splitOnCommaAux rest []
  | c :: rest, acc => splitOnCommaAux rest (c :: acc)

/-- Python `s.split(',')`; in particular `"".split(',') = [""]`. -/
def splitOnComma (s : String) : List String :=
  splitOnCommaAux s.data []

/-- One line parsed by `csv.reader` with the default dialect, as used by
`csv.DictReader` on `tasklist /FO CSV` output: fields separated by `,`, a
field starting with `"` is quoted, `""` inside quotes is a literal quote.
State: current field (reversed) and whether we are inside quotes. -/
def csvFieldsAux : List Char → List Char → Bool → List String
  | [], acc, _ => [String.mk acc.reverse]
  | '"' :: '"' :: rest, acc, true => csvFieldsAux rest ('"' :: acc) true
  | '"' :: rest, acc, true => csvFieldsAux rest acc false
  | c :: rest, acc, true => csvFieldsAux rest (c :: acc) true
  | ',' :: rest, acc, false => String.mk acc.reverse :: csvFieldsAux rest [] false
  | '"' :: rest, acc, false =>
      if acc.isEmpty then csvFieldsAux rest acc true else csvFieldsAux rest ('"' :: acc) false
  | c :: rest, acc, false => csvFieldsAux rest (c :: acc) false

/-- Python `csv.reader` on one line: a blank line yields no fields. -/
def csvParseLine (s : String) : List String :=
  if s.data.isEmpty then [] else csvFieldsAux s.data [] false

/- ### The class state and `__init__` -/

/-- The in-memory state of an `InteractiveBrokersAuthentication` object.
`client` and `session_id` are opaque handles to the two collaborators stored in
`__init__`; the class never inspects them, it only forwards calls. -/
structure InteractiveBrokersAuthentication where
  client : Nat
  session_id : Nat
  authenticated : Bool
  server_process_id : PyVal
  is_windows : Bool
  deriving DecidableEq, Repr

/-- `__init__`: stores the two collaborators, sets `authenticated = False`,
`server_process_id = None`, and `is_windows = (os.name == 'nt')`. -/
def InteractiveBrokersAuthentication.init
    (ib_client ib_session : Nat) (os_name : String) :
    InteractiveBrokersAuthentication :=
  { client := ib_client
    session_id := ib_session
    authenticated := false
    server_process_id := PyVal.none
    is_windows := os_name == "nt" }

/-- One row of `csv.DictReader(f=data, fieldnames=headers)`: each fieldname is
paired with its value (`restval = None` for missing trailing values); extra
values beyond the fieldnames live under the `restkey = None` key in `rest`. -/
structure WinRow where
  fields : List (String × PyVal)
  rest : Option (List String)
  deriving DecidableEq, Repr

/-- `data` field of the dict returned by `_is_already_running`: a raw string
(the Windows INFO message or the non-Windows fallback message), the list of
`pgrep` output lines, or the list of `csv.DictReader` rows. -/
inductive RunData where
  | str (s : String)
  | lines (ls : List String)
  | rows (rs : List WinRow)
  deriving DecidableEq, Repr

/-- The dict `{'is_running': ..., 'data': ...}` returned by
`_is_already_running`. -/
structure IsRunningDict where
  is_running : Bool
  data : RunData
  deriving DecidableEq, Repr

/- ### Gateway lifecycle methods -/

/-- The `args` passed to `subprocess.Popen` by `_startup_gateway`. -/
def startupArgs (is_windows : Bool) : List String :=
  if is_windows then
    ["cmd", "/k", "start", "Interactive Brokers Python API", "bin\\run.bat", "root\\conf.yaml"]
  else
    ["bash", "-c", "exec -a Interactive_Brokers_Python_API bin/run.sh root/conf.yaml"]

/-- The `cwd` passed to `subprocess.Popen` by `_startup_gateway`. -/
def gatewayCwd : String := "ibc/resources/clientportal.beta.gw"

/-- `_startup_gateway`: launches the gateway with `subprocess.Popen`, stores
the child pid in `server_process_id`, and opens the browser on
`https://localhost:5000`.  `popen_pid` is the pid the OS hands back. -/
def InteractiveBrokersAuthentication._startup_gateway
    (st : InteractiveBrokersAuthentication) (popen_pid : Int) :
    InteractiveBrokersAuthentication × List Effect :=
  ({ st with server_process_id := PyVal.int popen_pid },
   [Effect.subprocessPopen (startupArgs st.is_windows) gatewayCwd,
    Effect.browserOpen "https://localhost:5000"])

/-- The `tasklist` command `_is_already_running` runs on Windows. -/
def tasklistCommand : List String :=
  ["tasklist", "/fi", "WindowTitle eq Interactive Brokers Python API*", "/FO", "CSV"]

/-- The `pgrep` command `_is_already_running` runs on non-Windows. -/
def pgrepCommand : List String :=
  ["pgrep", "-f", "Interactive Brokers Python API*"]

/-- Zips fieldnames with row values, padding missing values with
`restval = None` as `csv.DictReader` does. -/
def zipRow : List String → List String → List (String × PyVal)
  | [], _ => []
  | h :: hs, [] => (h, PyVal.none) :: zipRow hs []
  | h :: hs, v :: vs => (h, PyVal.str v) :: zipRow hs vs

/-- `csv.DictReader` on one parsed row. -/
def dictReaderRow (headers fieldsv : List String) : WinRow :=
  { fields := zipRow headers fieldsv
    rest := if headers.length < fieldsv.length
            then some (fieldsv.drop headers.length) else Option.none }

/-- The Windows half of `_is_already_running`, applied to the decoded
`tasklist` stdout.  Mirrors the source: if `'INFO:' in content` the data is the
raw string and `data[0]` is its first character (so `'PID' in data[0]` is
False); otherwise the first line gives the headers (quotes stripped, split on
commas) and the remaining lines are fed to `csv.DictReader` (which skips blank
rows).  `data[0]` on an empty string or an empty row list raises `IndexError`
(`Except.error`). -/
def windowsParse (st : InteractiveBrokersAuthentication) (content : String) :
    Except Unit (InteractiveBrokersAuthentication × IsRunningDict) :=
  if pyInStr "INFO:" content then
    match content.data with
    | [] => Except.error ()
    | c :: _ =>
      if pyInStr "PID" (String.mk [c]) then
        Except.error ()
      else
        Except.ok (st, { is_running := false, data := RunData.str content })
  else
    match splitlines content with
    | [] => Except.error ()
    | headerLine :: restLines =>
      let headers := splitOnComma (String.mk (headerLine.data.filter (fun c => c != '"')))
      let rows := restLines.filterMap (fun line =>
        let fs := csvParseLine line
        if fs.isEmpty then Option.none else some (dictReaderRow headers fs))
      match rows with
      | [] => Except.error ()
      | r0 :: _ =>
        match r0.fields.find? (fun p => p.1 == "PID") with
        | some pv =>
          Except.ok ({ st with server_process_id := pv.2 },
                     { is_running := true, data := RunData.rows rows })
        | Option.none =>
          Except.ok (st, { is_running := false, data := RunData.rows rows })

/-- `_is_already_running`: runs `tasklist` (Windows) or `pgrep` (non-Windows),
decodes the stdout (passed in as `stdout`), and parses it.  On non-Windows:
empty output means not running (with the INFO message as data); non-empty
output is split into lines, `server_process_id` is set to the first line, and
the gateway is reported running. -/
def InteractiveBrokersAuthentication._is_already_running
    (st : InteractiveBrokersAuthentication) (stdout : String) :
    List Effect × Except Unit (InteractiveBrokersAuthentication × IsRunningDict) :=
  let command := if st.is_windows then tasklistCommand else pgrepCommand
  let effs := [Effect.subprocessRun command]
  if st.is_windows then
    (effs, windowsParse st stdout)
  else
    if stdout = "" then
      (effs, Except.ok (st,
        { is_running := false
          data := RunData.str "INFO: No tasks are running which match the specified criteria." }))
    else
      match splitlines stdout with
      | [] => (effs, Except.error ())
      | first :: rest =>
        (effs, Except.ok ({ st with server_process_id := PyVal.str first },
          { is_running := true, data := RunData.lines (first :: rest) }))

/-- `login`: asks `_is_already_running`; when not running it calls
`_startup_gateway`, otherwise it prints that the gateway is already up.
`stdout` is the decoded output of the process-listing command; `popen_pid` is
the pid `subprocess.Popen` would hand back.  The Python method returns `None`
either way; an `Except.error` is an exception propagating out of
`_is_already_running`. -/
def InteractiveBrokersAuthentication.login
    (st : InteractiveBrokersAuthentication) (stdout : String) (popen_pid : Int)
    (_use_selenium : Bool := false) :
    List Effect × Except Unit InteractiveBrokersAuthentication :=
  let (effs, r) := st._is_already_running stdout
  match r with
  | Except.error e => (effs, Except.error e)
  | Except.ok (st1, is_running_response) =>
    if !is_running_response.is_running then
      let (st2, effs2) := st1._startup_gateway popen_pid
      (effs ++ effs2, Except.ok st2)
    else
      (effs ++ [Effect.printMsg "Gateway already running, no need to start back up."],
       Except.ok st1)

/-- `close_gateway`: substitutes the stored `server_process_id` when `pid` is
`None`, then runs `Taskkill`/`kill` on `str(pid)` and returns the decoded
stdout.  Never raises and never touches the state. -/
def InteractiveBrokersAuthentication.close_gateway
    (st : InteractiveBrokersAuthentication) (pid : PyVal) (stdout : String) :
    InteractiveBrokersAuthentication × List Effect × String :=
  let pid := if pid = PyVal.none then st.server_process_id else pid
  let command :=
    if st.is_windows then ["Taskkill", "/F", "/PID", pyStr pid]
    else ["kill", "-9", pyStr pid]
  (st, [Effect.subprocessRun command], stdout)

/- ### HTTP forwarding methods -/

/-- `self.session.make_request(method=..., endpoint=..., json_payload=...)`:
records the request and returns whatever the session collaborator produces. -/
def InteractiveBrokersAuthentication.make_request
    (st : InteractiveBrokersAuthentication) (env : SessionEnv)
    (method endpoint : String) (json_payload : Option PyDict) :
    List Effect × Except Unit PyDict :=
  ([Effect.httpRequest method endpoint json_payload],
   env st.session_id method endpoint json_payload)

/-- `is_authenticated`: POSTs `/api/iserver/auth/status` and returns the
response.  The `check` parameter is accepted but never read. -/
def InteractiveBrokersAuthentication.is_authenticated
    (st : InteractiveBrokersAuthentication) (env : SessionEnv)
    (check : Bool := false) :
    List Effect × Except Unit PyDict :=
  st.make_request env "post" "/api/iserver/auth/status" Option.none

/-- `update_server_account`: POSTs `/api/iserver/account` with payload
`{'acctId': account_id}` and returns the response. -/
def InteractiveBrokersAuthentication.update_server_account
    (st : InteractiveBrokersAuthentication) (env : SessionEnv)
    (account_id : String) :
    List Effect × Except Unit PyDict :=
  let payload : PyDict := [("acctId", PyVal.str account_id)]
  st.make_request env "post" "/api/iserver/account" (some payload)

/-- `sso_validate`: POSTs `/api/sso/validate` and returns the response. -/
def InteractiveBrokersAuthentication.sso_validate
    (st : InteractiveBrokersAuthentication) (env : SessionEnv) :
    List Effect × Except Unit PyDict :=
  st.make_request env "post" "/api/sso/validate" Option.none

/-- `reauthenticate`: POSTs `/api/iserver/reauthenticate` and returns the
response. -/
def InteractiveBrokersAuthentication.reauthenticate
    (st : InteractiveBrokersAuthentication) (env : SessionEnv) :
    List Effect × Except Unit PyDict :=
  st.make_request env "post" "/api/iserver/reauthenticate" Option.none

/-- The body of `check_auth`'s `try:` block: call `is_authenticated()`, look up
`response['authenticated']` (`KeyError` when absent), and set
`self.authenticated = True` when it `== True`.  The effect list is what
happened before any exception; the `Except` is the state the block ends in, or
the exception it raises. -/
def InteractiveBrokersAuthentication.checkAuthTry
    (st : InteractiveBrokersAuthentication) (env : SessionEnv) :
    List Effect × Except Unit InteractiveBrokersAuthentication :=
  let (effs, res) := st.is_authenticated env
  (effs,
   match res with
   | Except.error e => Except.error e
   | Except.ok response =>
     match dictGet? response "authenticated" with
     | Option.none => Except.error ()
     | some v =>
       if pyEqTrue v then Except.ok { st with authenticated := true }
       else Except.ok st)

/-- `check_auth`: prints a progress line, then runs the `try:` body; the bare
`except Exception:` swallows any exception and returns, leaving the state as it
was. -/
def InteractiveBrokersAuthentication.check_auth
    (st : InteractiveBrokersAuthentication) (env : SessionEnv) :
    InteractiveBrokersAuthentication × List Effect :=
  let pr := Effect.printMsg "Checking authentication status..."
  let (effs, res) := st.checkAuthTry env
  match res with
  | Except.ok st2 => (st2, pr :: effs)
  | Except.error _ => (st, pr :: effs)

/- ### All operations of the class, as one dispatcher -/

/-- One invocation of a method of the class (with the environment inputs each
needs: decoded stdout for process-listing/kill commands, the pid `Popen` hands
back, arguments of the call). -/
inductive Op where
  | login (stdout : String) (popen_pid : Int) (_use_selenium : Bool)
  | startup_gateway (popen_pid : Int)
  | is_already_running (stdout : String)
  | close_gateway (pid : PyVal) (stdout : String)
  | is_authenticated (check : Bool)
  | update_server_account (account_id : String)
  | sso_validate
  | reauthenticate
  | check_auth
  deriving DecidableEq, Repr

/-- Runs one method invocation, returning the state after the call (the state
at the raise point when the method raises — no assignment precedes any raise)
and the effect trace. -/
def runOp (env : SessionEnv) (st : InteractiveBrokersAuthentication) :
    Op → InteractiveBrokersAuthentication × List Effect
  | Op.login stdout popen_pid u =>
    match st.login stdout popen_pid u with
    | (effs, Except.ok st2) => (st2, effs)
    | (effs, Except.error _) => (st, effs)
  | Op.startup_gateway popen_pid => st._startup_gateway popen_pid
  | Op.is_already_running stdout =>
    match st._is_already_running stdout with
    | (effs, Except.ok (st2, _)) => (st2, effs)
    | (effs, Except.error _) => (st, effs)
  | Op.close_gateway pid stdout =>
    let (st2, effs, _) := st.close_gateway pid stdout
    (st2, effs)
  | Op.is_authenticated check => (st, (st.is_authenticated env check).1)
  | Op.update_server_account account_id => (st, (st.update_server_account env account_id).1)
  | Op.sso_validate => (st, (st.sso_validate env).1)
  | Op.reauthenticate => (st, (st.reauthenticate env).1)
  | Op.check_auth => st.check_auth env

/- ### Concrete instances used by witnesses and counterexamples -/

/-- A freshly initialised client on a POSIX system. -/
def stLinux : InteractiveBrokersAuthentication :=
  InteractiveBrokersAuthentication.init 0 1 "posix"

/-- A session collaborator whose `make_request` always raises. -/
def envRaise : SessionEnv := fun _ _ _ _ => Except.error ()

/-- A session collaborator that always answers `{'authenticated': True}`. -/
def envAuthTrue : SessionEnv := fun _ _ _ _ => Except.ok [("authenticated", PyVal.bool true)]

/-- Modelled from the spec: `_startup_gateway` on non-Windows runs
`bash -c "exec -a NAME CMD ARGS"`; `exec -a` replaces the shell with `CMD`
running under the process name `NAME`, so the full command line of the gateway
process it leaves running is the shell command string with the leading
`"exec -a "` (8 characters) removed.  The OS-level behaviour of `bash` and
`exec` is outside `src/`. -/
def gatewayCmdline : String :=
  String.mk (((startupArgs false).getD 2 "").data.drop 8)

/-- Modelled from the spec: `pgrep -f PATTERN` reports processes whose full
command line matches PATTERN as an unanchored extended regular expression.
The concrete pattern `_is_already_running` passes, namely
`"Interactive Brokers Python API*"`, is the literal text
`Interactive Brokers Python AP` followed by `I*` (zero or more `I`s), so a
command line matches it exactly when it contains the substring
`"Interactive Brokers Python AP"`.  `pgrep` itself is an OS utility outside
`src/`. -/
def pgrepMatchesPattern (cmdline : String) : Bool :=
  pyInStr "Interactive Brokers Python AP" cmdline

/- ### Helper lemmas -/

theorem splitlinesAux_ne_nil (l acc : List Char) (h : l ≠ [] ∨ acc ≠ []) :
    splitlinesAux l acc ≠ [] := by
  induction l, acc using splitlinesAux.induct <;> simp_all [splitlinesAux]

theorem splitlines_ne_nil (s : String) (h : s ≠ "") : splitlines s ≠ [] := by
  apply splitlinesAux_ne_nil
  left
  intro hd
  apply h
  cases s with
  | mk data => simp_all


/-- The effect trace of `_is_already_running` is exactly the one
process-listing command it runs. -/
theorem isRunning_effects (st : InteractiveBrokersAuthentication) (stdout : String) :
    (st._is_already_running stdout).1 =
      [Effect.subprocessRun (if st.is_windows then tasklistCommand else pgrepCommand)] := by
  simp only [InteractiveBrokersAuthentication._is_already_running]
  split
  · simp_all
  · split
    · simp_all
    · split <;> simp_all

/-- Every successful result of `windowsParse` keeps every field except
`server_process_id`. -/
theorem windowsParse_ok_frame (st st2 : InteractiveBrokersAuthentication) (c : String)
    (d : IsRunningDict) (h : windowsParse st c = Except.ok (st2, d)) :
    st2.client = st.client ∧ st2.session_id = st.session_id ∧
    st2.authenticated = st.authenticated ∧ st2.is_windows = st.is_windows := by
  simp only [windowsParse] at h
  split at h
  all_goals try split at h
  all_goals try split at h
  all_goals try split at h
  all_goals simp_all
  all_goals (cases h.1; simp)

/-- Every successful result of `_is_already_running` keeps every field except
`server_process_id`. -/
theorem isRunning_ok_frame (st st2 : InteractiveBrokersAuthentication) (stdout : String)
    (d : IsRunningDict)
    (h : (st._is_already_running stdout).2 = Except.ok (st2, d)) :
    st2.client = st.client ∧ st2.session_id = st.session_id ∧
    st2.authenticated = st.authenticated ∧ st2.is_windows = st.is_windows := by
  simp only [InteractiveBrokersAuthentication._is_already_running] at h
  split at h
  · exact windowsParse_ok_frame st st2 stdout d h
  · split at h
    · simp_all
    · split at h <;> simp_all
      obtain ⟨h1, -⟩ := h
      subst h1
      simp

/-- The four endpoints of the spec's External Interfaces section. -/
def specEndpoints : List String :=
  ["/api/iserver/auth/status", "/api/iserver/account", "/api/sso/validate",
   "/api/iserver/reauthenticate"]

/-- The endpoints of the HTTP requests occurring in a trace. -/
def requestedEndpoints (effs : List Effect) : List String :=
  effs.filterMap (fun e => match e with
    | Effect.httpRequest _ ep _ => some ep
    | _ => Option.none)

/-- `_is_already_running` issues no HTTP request. -/
theorem requestedEndpoints_isRunning_nil (st : InteractiveBrokersAuthentication)
    (stdout : String) :
    requestedEndpoints (st._is_already_running stdout).1 = [] := by
  rw [isRunning_effects]
  rfl

/-- The state a successful `login` ends in keeps every field except
`server_process_id`. -/
theorem login_state_frame (st st2 : InteractiveBrokersAuthentication)
    (stdout : String) (popen_pid : Int) (u : Bool)
    (h : (st.login stdout popen_pid u).2 = Except.ok st2) :
    st2.client = st.client ∧ st2.session_id = st.session_id ∧
    st2.authenticated = st.authenticated ∧ st2.is_windows = st.is_windows := by
  rcases hir : st._is_already_running stdout with ⟨effs, r⟩
  cases r with
  | error e =>
    rw [show st.login stdout popen_pid u = (effs, Except.error e) by
      simp [InteractiveBrokersAuthentication.login, hir]] at h
    simp at h
  | ok p =>
    rcases p with ⟨st1, d⟩
    have hfr := isRunning_ok_frame st st1 stdout d (by rw [hir])
    by_cases hr : d.is_running
    · rw [show st.login stdout popen_pid u =
          (effs ++ [Effect.printMsg "Gateway already running, no need to start back up."],
           Except.ok st1) by
        simp [InteractiveBrokersAuthentication.login, hir, hr]] at h
      simp at h
      subst h
      exact hfr
    · rw [show st.login stdout popen_pid u =
          (effs ++ [Effect.subprocessPopen (startupArgs st1.is_windows) gatewayCwd,
                    Effect.browserOpen "https://localhost:5000"],
           Except.ok { st1 with server_process_id := PyVal.int popen_pid }) by
        simp [InteractiveBrokersAuthentication.login, hir, hr,
          InteractiveBrokersAuthentication._startup_gateway]] at h
      simp at h
      subst h
      simpa using hfr

/-- `login` issues no HTTP request. -/
theorem requestedEndpoints_login_nil (st : InteractiveBrokersAuthentication)
    (stdout : String) (popen_pid : Int) (u : Bool) :
    requestedEndpoints (st.login stdout popen_pid u).1 = [] := by
  rcases hir : st._is_already_running stdout with ⟨effs, r⟩
  have he : effs = [Effect.subprocessRun
      (if st.is_windows then tasklistCommand else pgrepCommand)] := by
    rw [← isRunning_effects st stdout, hir]
  subst he
  cases r with
  | error e =>
    simp [InteractiveBrokersAuthentication.login, hir, requestedEndpoints]
  | ok p =>
    rcases p with ⟨st1, d⟩
    by_cases hr : d.is_running <;>
      simp [InteractiveBrokersAuthentication.login, hir, hr,
        InteractiveBrokersAuthentication._startup_gateway, requestedEndpoints]

/-- The trace of `check_auth`: the progress print followed by the one status
request. -/
theorem check_auth_trace (st : InteractiveBrokersAuthentication) (env : SessionEnv) :
    (st.check_auth env).2 =
      [Effect.printMsg "Checking authentication status...",
       Effect.httpRequest "post" "/api/iserver/auth/status" Option.none] := by
  rcases hct : st.checkAuthTry env with ⟨effs, res⟩
  have he : effs = [Effect.httpRequest "post" "/api/iserver/auth/status" Option.none] := by
    have h1 : (st.checkAuthTry env).1 =
        [Effect.httpRequest "post" "/api/iserver/auth/status" Option.none] := rfl
    rw [hct] at h1
    exact h1
  subst he
  cases res <;> simp [InteractiveBrokersAuthentication.check_auth, hct]

/-- `check_auth` either leaves the state unchanged or only flips
`authenticated` to `True`. -/
theorem check_auth_state_shape (st : InteractiveBrokersAuthentication) (env : SessionEnv) :
    (st.check_auth env).1 = st ∨
    (st.check_auth env).1 = { st with authenticated := true } := by
  simp only [InteractiveBrokersAuthentication.check_auth,
    InteractiveBrokersAuthentication.checkAuthTry,
    InteractiveBrokersAuthentication.is_authenticated,
    InteractiveBrokersAuthentication.make_request]
  rcases env st.session_id "post" "/api/iserver/auth/status" Option.none with e | d
  · simp
  · simp only []
    rcases hg : dictGet? d "authenticated" with _ | v
    · simp
    · by_cases hv : pyEqTrue v = true <;> simp [hv]

/-- `check_auth` ends with `authenticated = True` exactly when it already was
`True`, or the status request succeeded with an `authenticated` field that
compares equal to `True`. -/
theorem check_auth_sets_iff (st : InteractiveBrokersAuthentication) (env : SessionEnv) :
    ((st.check_auth env).1.authenticated = true ↔
      st.authenticated = true ∨
      ∃ d, env st.session_id "post" "/api/iserver/auth/status" Option.none = Except.ok d ∧
        ∃ v, dictGet? d "authenticated" = some v ∧ pyEqTrue v = true) := by
  simp only [InteractiveBrokersAuthentication.check_auth,
    InteractiveBrokersAuthentication.checkAuthTry,
    InteractiveBrokersAuthentication.is_authenticated,
    InteractiveBrokersAuthentication.make_request]
  rcases henv : env st.session_id "post" "/api/iserver/auth/status" Option.none with e | d
  · simp
  · simp only []
    rcases hg : dictGet? d "authenticated" with _ | v
    · simp [hg]
    · by_cases hv : pyEqTrue v = true <;> simp [hg, hv]

/-- Every operation other than `check_auth` leaves `authenticated`
unchanged. -/
theorem runOp_preserves_auth (env : SessionEnv) (st : InteractiveBrokersAuthentication)
    (op : Op) (h : op ≠ Op.check_auth) :
    (runOp env st op).1.authenticated = st.authenticated := by
  cases op with
  | login stdout pid u =>
    rcases hl : st.login stdout pid u with ⟨effs, r⟩
    cases r with
    | error e => simp [runOp, hl]
    | ok st2 =>
      have hfr := login_state_frame st st2 stdout pid u (by rw [hl])
      simp [runOp, hl, hfr.2.2.1]
  | startup_gateway pid =>
    simp [runOp, InteractiveBrokersAuthentication._startup_gateway]
  | is_already_running stdout =>
    rcases hir : st._is_already_running stdout with ⟨effs, r⟩
    cases r with
    | error e => simp [runOp, hir]
    | ok p =>
      rcases p with ⟨st2, d⟩
      have hfr := isRunning_ok_frame st st2 stdout d (by rw [hir])
      simp [runOp, hir, hfr.2.2.1]
  | close_gateway pid stdout => rfl
  | is_authenticated c => rfl
  | update_server_account a => rfl
  | sso_validate => rfl
  | reauthenticate => rfl
  | check_auth => exact absurd rfl h

/- ### The claims -/

/-- C3: Each of the four forwarding operations issues exactly one POST request
through the session collaborator and returns the session's response unchanged:
`is_authenticated` posts to `/api/iserver/auth/status`, `reauthenticate` to
`/api/iserver/reauthenticate`, `sso_validate` to `/api/sso/validate`, and
`update_server_account` to `/api/iserver/account` with the JSON payload
mapping `acctId` to the given `account_id`. -/
theorem forwarding_requests_spec (st : InteractiveBrokersAuthentication)
    (env : SessionEnv) (check : Bool) (account_id : String) :
    st.is_authenticated env check =
      ([Effect.httpRequest "post" "/api/iserver/auth/status" Option.none],
       env st.session_id "post" "/api/iserver/auth/status" Option.none) ∧
    st.reauthenticate env =
      ([Effect.httpRequest "post" "/api/iserver/reauthenticate" Option.none],
       env st.session_id "post" "/api/iserver/reauthenticate" Option.none) ∧
    st.sso_validate env =
      ([Effect.httpRequest "post" "/api/sso/validate" Option.none],
       env st.session_id "post" "/api/sso/validate" Option.none) ∧
    st.update_server_account env account_id =
      ([Effect.httpRequest "post" "/api/iserver/account"
          (some [("acctId", PyVal.str account_id)])],
       env st.session_id "post" "/api/iserver/account"
          (some [("acctId", PyVal.str account_id)])) :=
  ⟨rfl, rfl, rfl, rfl⟩

/-- C9: `is_authenticated` ignores its `check` parameter: two calls in the
same state issue the identical request (same method and endpoint) and return
the same result. -/
theorem is_authenticated_ignores_check (st : InteractiveBrokersAuthentication)
    (env : SessionEnv) (check1 check2 : Bool) :
    st.is_authenticated env check1 = st.is_authenticated env check2 :=
  rfl

/-- C10: `close_gateway` never raises for any pid argument (it is a total
function of the state, the pid and the command's output): a `None` pid is
replaced by the stored `server_process_id`, and when that is also `None` the
termination command is still run, with the literal string "None" as the
process id; in every case the command's decoded stdout is returned. -/
theorem close_gateway_total_spec (st : InteractiveBrokersAuthentication)
    (pid : PyVal) (stdout : String) :
    st.close_gateway pid stdout =
      (st,
       [Effect.subprocessRun
         (if st.is_windows then
            ["Taskkill", "/F", "/PID",
             pyStr (if pid = PyVal.none then st.server_process_id else pid)]
          else
            ["kill", "-9",
             pyStr (if pid = PyVal.none then st.server_process_id else pid)])],
       stdout) ∧
    stLinux.close_gateway PyVal.none stdout =
      (stLinux, [Effect.subprocessRun ["kill", "-9", "None"]], stdout) :=
  ⟨rfl, rfl⟩

/-- C6: On non-Windows systems `_is_already_running` runs `pgrep` and parses
its decoded stdout: empty output returns `is_running = False` with an
informational message as data; any non-empty output returns
`is_running = True` with data the output split into lines, and sets
`server_process_id` to the first output line. -/
theorem is_already_running_posix_parse (st : InteractiveBrokersAuthentication)
    (stdout : String) (hw : st.is_windows = false) :
    (stdout = "" → st._is_already_running stdout =
      ([Effect.subprocessRun pgrepCommand],
       Except.ok (st,
         { is_running := false
           data := RunData.str
             "INFO: No tasks are running which match the specified criteria." }))) ∧
    (stdout ≠ "" → st._is_already_running stdout =
      ([Effect.subprocessRun pgrepCommand],
       Except.ok ({ st with server_process_id := PyVal.str ((splitlines stdout).headD "") },
         { is_running := true, data := RunData.lines (splitlines stdout) }))) := by
  constructor
  · intro he
    simp [InteractiveBrokersAuthentication._is_already_running, hw, he]
  · intro hne
    obtain ⟨first, rest, hfr⟩ : ∃ f r, splitlines stdout = f :: r := by
      cases hsl : splitlines stdout with
      | nil => exact absurd hsl (splitlines_ne_nil stdout hne)
      | cons f r => exact ⟨f, r, rfl⟩
    simp [InteractiveBrokersAuthentication._is_already_running, hw, hne, hfr]

/-- Witness for C6: a concrete `pgrep` output of two pids, and the empty
output. -/
theorem is_already_running_posix_parse_witness :
    stLinux._is_already_running "" =
      ([Effect.subprocessRun pgrepCommand],
       Except.ok (stLinux,
         { is_running := false
           data := RunData.str
             "INFO: No tasks are running which match the specified criteria." })) ∧
    stLinux._is_already_running "40042\n40095\n" =
      ([Effect.subprocessRun pgrepCommand],
       Except.ok ({ stLinux with server_process_id := PyVal.str "40042" },
         { is_running := true, data := RunData.lines ["40042", "40095"] })) := by
  constructor
  · exact (is_already_running_posix_parse stLinux "" rfl).1 rfl
  · exact ((is_already_running_posix_parse stLinux "40042\n40095\n" rfl).2
      (by decide)).trans (by rfl)

/-- C4: `check_auth` swallows every exception raised during the status check:
it is a total function of the state and the session behaviour (so it
propagates nothing for any behaviour of the session, including `make_request`
raising or the response lacking an `authenticated` key), and whenever the
`try:` body raises, the whole state — in particular `authenticated` — is left
unchanged.  In every case it either leaves the state unchanged or only sets
`authenticated` to `True`. -/
theorem check_auth_swallows_exceptions (st : InteractiveBrokersAuthentication)
    (env : SessionEnv) :
    ((st.checkAuthTry env).2 = Except.error () →
      st.check_auth env =
        (st, Effect.printMsg "Checking authentication status..." ::
          (st.checkAuthTry env).1)) ∧
    ((st.check_auth env).1 = st ∨
      (st.check_auth env).1 = { st with authenticated := true }) := by
  constructor
  · intro herr
    rcases hct : st.checkAuthTry env with ⟨effs, res⟩
    rw [hct] at herr
    simp only at herr
    subst herr
    simp [InteractiveBrokersAuthentication.check_auth, hct]
  · exact check_auth_state_shape st env

/-- Witness for C4: a session whose `make_request` always raises. -/
theorem check_auth_swallows_exceptions_witness :
    (stLinux.checkAuthTry envRaise).2 = Except.error () ∧
    stLinux.check_auth envRaise =
      (stLinux, Effect.printMsg "Checking authentication status..." ::
        (stLinux.checkAuthTry envRaise).1) :=
  ⟨rfl, (check_auth_swallows_exceptions stLinux envRaise).1 rfl⟩

/-- C1: If `_is_already_running` reports that no gateway is running, `login`
launches the gateway subprocess (via `_startup_gateway`) and opens a browser
on `https://localhost:5000`, printing nothing; if a gateway is reported
running, `login` launches no subprocess and opens no browser, printing a
message instead — it never spawns a second gateway when one is detected. -/
theorem login_branches_on_running_gateway
    (st st1 : InteractiveBrokersAuthentication) (stdout : String) (popen_pid : Int)
    (u : Bool) (effs : List Effect) (d : IsRunningDict)
    (h : st._is_already_running stdout = (effs, Except.ok (st1, d))) :
    (d.is_running = false →
      st.login stdout popen_pid u =
        (effs ++ [Effect.subprocessPopen (startupArgs st1.is_windows) gatewayCwd,
                  Effect.browserOpen "https://localhost:5000"],
         Except.ok { st1 with server_process_id := PyVal.int popen_pid }) ∧
      ∀ m, Effect.printMsg m ∉ (st.login stdout popen_pid u).1) ∧
    (d.is_running = true →
      st.login stdout popen_pid u =
        (effs ++ [Effect.printMsg "Gateway already running, no need to start back up."],
         Except.ok st1) ∧
      (∀ args cwd, Effect.subprocessPopen args cwd ∉ (st.login stdout popen_pid u).1) ∧
      (∀ url, Effect.browserOpen url ∉ (st.login stdout popen_pid u).1)) := by
  have he : effs = [Effect.subprocessRun
      (if st.is_windows then tasklistCommand else pgrepCommand)] := by
    rw [← isRunning_effects st stdout, h]
  constructor
  · intro hr
    have hlog : st.login stdout popen_pid u =
        (effs ++ [Effect.subprocessPopen (startupArgs st1.is_windows) gatewayCwd,
                  Effect.browserOpen "https://localhost:5000"],
         Except.ok { st1 with server_process_id := PyVal.int popen_pid }) := by
      simp [InteractiveBrokersAuthentication.login, h, hr,
        InteractiveBrokersAuthentication._startup_gateway]
    refine ⟨hlog, ?_⟩
    intro m
    rw [hlog, he]
    simp
  · intro hr
    have hlog : st.login stdout popen_pid u =
        (effs ++ [Effect.printMsg "Gateway already running, no need to start back up."],
         Except.ok st1) := by
      simp [InteractiveBrokersAuthentication.login, h, hr]
    refine ⟨hlog, ?_, ?_⟩
    · intro args cwd
      rw [hlog, he]
      simp
    · intro url
      rw [hlog, he]
      simp

/-- Witness for C1, both branches at concrete inputs: a fresh POSIX client
with empty `pgrep` output (no gateway: subprocess launched, browser opened),
and the same client with a pid on stdout (gateway detected: only the print). -/
theorem login_branches_witness :
    stLinux.login "" 7 false =
      ([Effect.subprocessRun pgrepCommand,
        Effect.subprocessPopen (startupArgs false) gatewayCwd,
        Effect.browserOpen "https://localhost:5000"],
       Except.ok { stLinux with server_process_id := PyVal.int 7 }) ∧
    stLinux.login "40042\n" 7 false =
      ([Effect.subprocessRun pgrepCommand,
        Effect.printMsg "Gateway already running, no need to start back up."],
       Except.ok { stLinux with server_process_id := PyVal.str "40042" }) := by
  constructor
  · exact ((login_branches_on_running_gateway stLinux stLinux "" 7 false
      [Effect.subprocessRun pgrepCommand]
      { is_running := false
        data := RunData.str
          "INFO: No tasks are running which match the specified criteria." }
      rfl).1 rfl).1
  · exact ((login_branches_on_running_gateway stLinux
      { stLinux with server_process_id := PyVal.str "40042" } "40042\n" 7 false
      [Effect.subprocessRun pgrepCommand]
      { is_running := true, data := RunData.lines ["40042"] }
      (by rfl)).2 rfl).1

/-- C2 fails on the code: `_startup_gateway` names the gateway process
`Interactive_Brokers_Python_API` (underscores), so the command line of a
gateway previously launched by this module does not match the pattern
`"Interactive Brokers Python API*"` (spaces) that `_is_already_running`
passes to `pgrep`.  `pgrep` therefore prints nothing for a self-launched
gateway, `_is_already_running` reports `is_running = False`, and a second
`login` spawns a duplicate gateway subprocess. -/
theorem relaunch_despite_running_gateway :
    gatewayCmdline = "Interactive_Brokers_Python_API bin/run.sh root/conf.yaml" ∧
    pgrepMatchesPattern gatewayCmdline = false ∧
    (stLinux.login "" 7 false).1.contains
      (Effect.subprocessPopen (startupArgs false) gatewayCwd) = true := by
  refine ⟨by decide, by decide, by decide⟩

/-- C5: Across all operations of the module, the HTTP endpoints ever requested
are exactly the four listed in the External Interfaces section: every request
of every operation goes to one of them, and each of the four is requested by
some operation. -/
theorem requested_endpoints_exact :
    (∀ (env : SessionEnv) (st : InteractiveBrokersAuthentication) (op : Op),
      ∀ ep ∈ requestedEndpoints (runOp env st op).2, ep ∈ specEndpoints) ∧
    (∀ ep ∈ specEndpoints,
      ∃ (env : SessionEnv) (st : InteractiveBrokersAuthentication) (op : Op),
        ep ∈ requestedEndpoints (runOp env st op).2) := by
  constructor
  · intro env st op ep hep
    cases op with
    | login stdout pid u =>
      rcases hl : st.login stdout pid u with ⟨effs, r⟩
      have hnil : requestedEndpoints effs = [] := by
        rw [← requestedEndpoints_login_nil st stdout pid u, hl]
      cases r with
      | error e =>
        simp only [runOp, hl] at hep
        rw [hnil] at hep
        simp at hep
      | ok st2 =>
        simp only [runOp, hl] at hep
        rw [hnil] at hep
        simp at hep
    | startup_gateway pid =>
      simp [runOp, InteractiveBrokersAuthentication._startup_gateway,
        requestedEndpoints] at hep
    | is_already_running stdout =>
      rcases hir : st._is_already_running stdout with ⟨effs, r⟩
      have hnil : requestedEndpoints effs = [] := by
        rw [← requestedEndpoints_isRunning_nil st stdout, hir]
      cases r with
      | error e =>
        simp only [runOp, hir] at hep
        rw [hnil] at hep
        simp at hep
      | ok p =>
        rcases p with ⟨st2, d⟩
        simp only [runOp, hir] at hep
        rw [hnil] at hep
        simp at hep
    | close_gateway pid stdout =>
      simp [runOp, InteractiveBrokersAuthentication.close_gateway,
        requestedEndpoints] at hep
    | is_authenticated c =>
      simp [runOp, InteractiveBrokersAuthentication.is_authenticated,
        InteractiveBrokersAuthentication.make_request, requestedEndpoints] at hep
      simp [hep, specEndpoints]
    | update_server_account a =>
      simp [runOp, InteractiveBrokersAuthentication.update_server_account,
        InteractiveBrokersAuthentication.make_request, requestedEndpoints] at hep
      simp [hep, specEndpoints]
    | sso_validate =>
      simp [runOp, InteractiveBrokersAuthentication.sso_validate,
        InteractiveBrokersAuthentication.make_request, requestedEndpoints] at hep
      simp [hep, specEndpoints]
    | reauthenticate =>
      simp [runOp, InteractiveBrokersAuthentication.reauthenticate,
        InteractiveBrokersAuthentication.make_request, requestedEndpoints] at hep
      simp [hep, specEndpoints]
    | check_auth =>
      simp only [runOp] at hep
      rw [check_auth_trace st env] at hep
      simp [requestedEndpoints] at hep
      simp [hep, specEndpoints]
  · intro ep hp
    simp only [specEndpoints, List.mem_cons, List.not_mem_nil, or_false] at hp
    rcases hp with rfl | rfl | rfl | rfl
    · exact ⟨envRaise, stLinux, Op.is_authenticated false, by decide⟩
    · exact ⟨envRaise, stLinux, Op.update_server_account "DU1234", by decide⟩
    · exact ⟨envRaise, stLinux, Op.sso_validate, by decide⟩
    · exact ⟨envRaise, stLinux, Op.reauthenticate, by decide⟩

/-- Witness for C5: a concrete operation and endpoint instantiating the
universal half of the theorem. -/
theorem requested_endpoints_exact_witness :
    "/api/sso/validate" ∈ specEndpoints :=
  requested_endpoints_exact.1 envRaise stLinux Op.sso_validate
    "/api/sso/validate" (by decide)

/-- C7: The only mutable in-memory state the operations touch is the process
id and the authenticated flag: every operation keeps `client`, `session_id`
(the stored session collaborator) and `is_windows` unchanged;
`login`/`_startup_gateway`/`_is_already_running` reassign at most
`server_process_id`, `check_auth` reassigns at most `authenticated`, and every
other operation leaves the whole state unchanged. -/
theorem runOp_frame (env : SessionEnv) (st : InteractiveBrokersAuthentication)
    (op : Op) :
    (runOp env st op).1.client = st.client ∧
    (runOp env st op).1.session_id = st.session_id ∧
    (runOp env st op).1.is_windows = st.is_windows ∧
    (match op with
     | Op.login _ _ _ => (runOp env st op).1.authenticated = st.authenticated
     | Op.startup_gateway _ => (runOp env st op).1.authenticated = st.authenticated
     | Op.is_already_running _ => (runOp env st op).1.authenticated = st.authenticated
     | Op.check_auth => (runOp env st op).1.server_process_id = st.server_process_id
     | _ => (runOp env st op).1 = st) := by
  cases op with
  | login stdout pid u =>
    rcases hl : st.login stdout pid u with ⟨effs, r⟩
    cases r with
    | error e => simp [runOp, hl]
    | ok st2 =>
      have hfr := login_state_frame st st2 stdout pid u (by rw [hl])
      simp only [runOp, hl]
      exact ⟨hfr.1, hfr.2.1, hfr.2.2.2, hfr.2.2.1⟩
  | startup_gateway pid =>
    simp [runOp, InteractiveBrokersAuthentication._startup_gateway]
  | is_already_running stdout =>
    rcases hir : st._is_already_running stdout with ⟨effs, r⟩
    cases r with
    | error e => simp [runOp, hir]
    | ok p =>
      rcases p with ⟨st2, d⟩
      have hfr := isRunning_ok_frame st st2 stdout d (by rw [hir])
      simp only [runOp, hir]
      exact ⟨hfr.1, hfr.2.1, hfr.2.2.2, hfr.2.2.1⟩
  | close_gateway pid stdout => exact ⟨rfl, rfl, rfl, rfl⟩
  | is_authenticated c => exact ⟨rfl, rfl, rfl, rfl⟩
  | update_server_account a => exact ⟨rfl, rfl, rfl, rfl⟩
  | sso_validate => exact ⟨rfl, rfl, rfl, rfl⟩
  | reauthenticate => exact ⟨rfl, rfl, rfl, rfl⟩
  | check_auth =>
    rcases check_auth_state_shape st env with h | h <;> simp [runOp, h]

/-- C8: The `authenticated` flag is monotone: it starts `False` in `__init__`;
`check_auth` is the only operation that assigns it, setting it to `True`
exactly when the status response's `authenticated` field compares equal to
`True`; and no operation ever moves it from `True` back to `False`. -/
theorem authenticated_monotone :
    (∀ c s osn, (InteractiveBrokersAuthentication.init c s osn).authenticated = false) ∧
    (∀ (env : SessionEnv) (st : InteractiveBrokersAuthentication) (op : Op),
      op ≠ Op.check_auth → (runOp env st op).1.authenticated = st.authenticated) ∧
    (∀ (env : SessionEnv) (st : InteractiveBrokersAuthentication),
      ((st.check_auth env).1.authenticated = true ↔
        st.authenticated = true ∨
        ∃ d, env st.session_id "post" "/api/iserver/auth/status" Option.none =
               Except.ok d ∧
          ∃ v, dictGet? d "authenticated" = some v ∧ pyEqTrue v = true)) ∧
    (∀ (env : SessionEnv) (st : InteractiveBrokersAuthentication) (op : Op),
      st.authenticated = true → (runOp env st op).1.authenticated = true) := by
  refine ⟨fun c s osn => rfl,
          fun env st op h => runOp_preserves_auth env st op h,
          fun env st => check_auth_sets_iff st env,
          ?_⟩
  intro env st op hauth
  by_cases h : op = Op.check_auth
  · subst h
    simp only [runOp]
    rcases check_auth_state_shape st env with hs | hs <;> rw [hs]
    exact hauth
  · rw [runOp_preserves_auth env st op h, hauth]

/-- The `stLinux` client with `authenticated` already `True`. -/
def stAuth : InteractiveBrokersAuthentication :=
  { stLinux with authenticated := true }

/-- Witness for C8 at concrete inputs: a non-`check_auth` operation preserving
the flag, and `check_auth` keeping an already-`True` flag `True`. -/
theorem authenticated_monotone_witness :
    (runOp envRaise stLinux Op.sso_validate).1.authenticated = stLinux.authenticated ∧
    (runOp envAuthTrue stAuth Op.check_auth).1.authenticated = true :=
  ⟨authenticated_monotone.2.1 envRaise stLinux Op.sso_validate (by decide),
   authenticated_monotone.2.2.2 envAuthTrue stAuth Op.check_auth rfl⟩
